import Mathlib

/-!
# NPTEL-Automation: the request handlers of `app.js`

A shallow embedding of the Express handlers of `src/app.js`.

* The process-wide variable `userInfo`, which is the session record the handlers
  test and report, and the credential bundle held by the shared `oauth2Client`
  form the state.
* Every awaited call to the identity provider or to the calendar API is an
  input of the handler: its outcome (`Except Err _`) is passed in, and the
  handler records each call it really issues, in order, in `calls`.
* A handler body is run from start to end on one state (requests are
  handled one after the other).
-/

namespace NptelAutomation

/-! ## Data model -/

/-- The value caught by a `catch` block: an error carrying a message. -/
structure Err where
  message : String
deriving DecidableEq, Repr

/-- The token bundle resolved by `oauth2Client.getToken(code)`. -/
structure Tokens where
  access_token : Option String
  refresh_token : Option String
deriving DecidableEq, Repr

/-- One entry of `reminders.overrides`. -/
structure Override where
  method : String
  minutes : Nat
deriving DecidableEq, Repr

/-- The `reminders` object of a calendar event. -/
structure Reminders where
  useDefault : Bool
  overrides : List Override
deriving DecidableEq, Repr

/-- The `start` and `end` objects of a calendar event. -/
structure EventDateTime where
  dateTime : String
  timeZone : String
deriving DecidableEq, Repr

/-- A calendar event resource, as submitted to `events.insert` and as returned
by `events.get`. A property that is missing is `none`. -/
structure CalendarEvent where
  summary : String
  description : String
  start : Option EventDateTime
  end_ : Option EventDateTime
  reminders : Option Reminders
deriving DecidableEq, Repr

/-- A property value of a JSON object, in a response body or in the data of an
API response. A property that is missing is `undef`. -/
inductive JVal where
  | bool (b : Bool)
  | str (s : String)
  | undef
  | reminders (r : Reminders)
deriving DecidableEq, Repr

/-- The object in `userInfoResponse.data`, with the three properties the program
reads. The handlers pass their values on as they are. -/
structure Profile where
  name : JVal
  email : JVal
  picture : JVal
deriving DecidableEq, Repr

/-- The bundle of a client that holds no tokens (`credentials = {}`). -/
def emptyBundle : Tokens :=
  { access_token := none, refresh_token := none }

/-- The mutable state shared by all handlers: `userInfo` (line 21, `null` is
`none`) and the credential bundle held by the shared `oauth2Client`
(a fresh client holds the empty bundle). -/
structure State where
  userInfo : Option Profile
  credentials : Tokens
deriving DecidableEq, Repr

/-- The state at startup: `let userInfo = null` and a fresh `OAuth2Client`. -/
def State.init : State :=
  { userInfo := none, credentials := emptyBundle }

/-- A possibly missing `reminders` property as a JSON value. -/
def JVal.ofReminders : Option Reminders → JVal
  | some r => JVal.reminders r
  | none => JVal.undef

/-- What a handler sends: `res.status(n).json(obj)` (`res.json` uses status 200)
or `res.redirect(url)`. -/
inductive Response where
  | json (status : Nat) (body : List (String × JVal))
  | redirect (location : String)
deriving DecidableEq, Repr

/-- The awaited outbound calls, with the arguments the handlers pass. -/
inductive ExtCall where
  | getToken (code : String)
  | userinfoGet
  | revokeCredentials
  | settingsGet (setting : String)
  | eventsInsert (calendarId : String) (resource : CalendarEvent)
      (sendNotifications : Bool) (sendUpdates : String)
  | eventsGet (calendarId : String) (eventId : String)
deriving DecidableEq, Repr

/-- The outcome of running one handler. -/
structure Result where
  response : Response
  state : State
  calls : List ExtCall
deriving DecidableEq, Repr

/-! ## Handlers -/

/-- The handler of `GET /auth` (lines 29-35): redirects to the URL built by
`generateAuthUrl`, which is local to the client library and given here. -/
def auth (authUrl : String) (s : State) : Result :=
  { response := Response.redirect authUrl, state := s, calls := [] }

/-- The handler of `GET /oauth2callback` (lines 37-55). `exchange` is the outcome
of `getToken(code)` and `profile` the outcome of `userinfo.get()`. -/
def oauth2callback (code : String) (exchange : Except Err Tokens)
    (profile : Except Err Profile) (s : State) : Result :=
  match exchange with
  | Except.error _ =>
    { response := Response.redirect "/?auth=failed", state := s,
      calls := [ExtCall.getToken code] }
  | Except.ok tokens =>
    -- oauth2Client.setCredentials(tokens)
    let s1 : State := { s with credentials := tokens }
    match profile with
    | Except.error _ =>
      { response := Response.redirect "/?auth=failed", state := s1,
        calls := [ExtCall.getToken code, ExtCall.userinfoGet] }
    | Except.ok data =>
      -- userInfo = userInfoResponse.data
      { response := Response.redirect "/?auth=success",
        state := { s1 with userInfo := some data },
        calls := [ExtCall.getToken code, ExtCall.userinfoGet] }

/-- The handler of `GET /auth-status` (lines 57-68). -/
def authStatus (s : State) : Result :=
  match s.userInfo with
  | some u =>
    { response := Response.json 200
        [("authenticated", JVal.bool true),
         ("name", u.name),
         ("email", u.email),
         ("picture", u.picture)],
      state := s, calls := [] }
  | none =>
    { response := Response.json 200 [("authenticated", JVal.bool false)],
      state := s, calls := [] }

/-- The handler of `POST /logout` (lines 70-80). `revoke` is the outcome of
`oauth2Client.revokeCredentials()`. That method of the client library empties
the bundle of the client before it sends the revocation request, so the bundle
is empty afterwards whether the promise resolves or rejects. -/
def logout (revoke : Except Err Unit) (s : State) : Result :=
  -- oauth2Client.revokeCredentials()
  let s1 : State := { s with credentials := emptyBundle }
  match revoke with
  | Except.ok _ =>
    -- userInfo = null
    { response := Response.json 200
        [("success", JVal.bool true), ("message", JVal.str "Logged out successfully")],
      state := { s1 with userInfo := none },
      calls := [ExtCall.revokeCredentials] }
  | Except.error _ =>
    { response := Response.json 500
        [("success", JVal.bool false), ("error", JVal.str "Failed to logout")],
      state := s1,
      calls := [ExtCall.revokeCredentials] }

/-- The object literal `event` of lines 98-118, for the fetched time zone. -/
def event (userTimeZone : String) : CalendarEvent :=
  { summary := "Exam Schedule",
    description := "Final examination for the semester",
    start := some { dateTime := "2024-08-20T09:00:00", timeZone := userTimeZone },
    end_ := some { dateTime := "2024-08-20T12:00:00", timeZone := userTimeZone },
    reminders := some
      { useDefault := false,
        overrides :=
          [ { method := "email", minutes := 60 * 24 },
            { method := "popup", minutes := 60 * 2 },
            { method := "popup", minutes := 30 },
            { method := "popup", minutes := 60 * 6 - 5 } ] } }

/-- The message of the `TypeError` thrown by `createdEvent.data.start.timeZone`
when the fetched event has no `start`. -/
def missingStartMessage : String :=
  "Cannot read properties of undefined (reading \x27timeZone\x27)"

/-- The body sent by the `catch` block of `/add-event` (line 145). -/
def addEventFailure (error : Err) : Response :=
  Response.json 500 [("success", JVal.bool false), ("error", JVal.str error.message)]

/-- The handler of `GET /add-event` (lines 82-148). `settings` is the outcome of
`calendar.settings.get` (its `data.value`), `insert` the outcome of
`calendar.events.insert` (its `data.id`) and `confirm` the outcome of
`calendar.events.get` (its `data`). -/
def addEvent (settings : Except Err String) (insert : Except Err String)
    (confirm : Except Err CalendarEvent) (s : State) : Result :=
  match s.userInfo with
  | none =>
    { response := Response.json 401
        [("success", JVal.bool false), ("error", JVal.str "Not authenticated")],
      state := s, calls := [] }
  | some _ =>
    let c1 := ExtCall.settingsGet "timezone"
    match settings with
    | Except.error e => { response := addEventFailure e, state := s, calls := [c1] }
    | Except.ok userTimeZone =>
      let c2 := ExtCall.eventsInsert "primary" (event userTimeZone) true "all"
      match insert with
      | Except.error e => { response := addEventFailure e, state := s, calls := [c1, c2] }
      | Except.ok id =>
        let c3 := ExtCall.eventsGet "primary" id
        match confirm with
        | Except.error e =>
          { response := addEventFailure e, state := s, calls := [c1, c2, c3] }
        | Except.ok created =>
          match created.start with
          | none =>
            { response := addEventFailure { message := missingStartMessage },
              state := s, calls := [c1, c2, c3] }
          | some start =>
            { response := Response.json 200
                [("success", JVal.bool true),
                 ("eventId", JVal.str id),
                 ("eventTimeZone", JVal.str start.timeZone),
                 ("reminders", JVal.ofReminders created.reminders)],
              state := s, calls := [c1, c2, c3] }

/-! ## Request sequences -/

/-- A request together with the outcomes of the outbound calls it may issue. -/
inductive Request where
  | auth (authUrl : String)
  | oauth2callback (code : String) (exchange : Except Err Tokens)
      (profile : Except Err Profile)
  | authStatus
  | logout (revoke : Except Err Unit)
  | addEvent (settings : Except Err String) (insert : Except Err String)
      (confirm : Except Err CalendarEvent)

/-- Dispatch of a request to its handler. -/
def handle (s : State) : Request → Result
  | Request.auth url => auth url s
  | Request.oauth2callback code exchange profile => oauth2callback code exchange profile s
  | Request.authStatus => authStatus s
  | Request.logout revoke => logout revoke s
  | Request.addEvent settings insert confirm => addEvent settings insert confirm s

/-- The responses to a sequence of requests handled one after the other. -/
def run (s : State) : List Request → List Response
  | [] => []
  | r :: rs => (handle s r).response :: run (handle s r).state rs

/-- An `/oauth2callback` request whose code exchange and profile fetch both succeed. -/
def Request.isSuccessfulExchange : Request → Bool
  | Request.oauth2callback _ (Except.ok _) (Except.ok _) => true
  | _ => false

/-- Marks the `/auth-status` requests. -/
def Request.isAuthStatus : Request → Bool
  | Request.authStatus => true
  | _ => false

/-- The event resources passed to `calendar.events.insert` among a handler's calls. -/
def insertedPayloads : List ExtCall → List CalendarEvent
  | [] => []
  | ExtCall.eventsInsert _ resource _ _ :: cs => resource :: insertedPayloads cs
  | _ :: cs => insertedPayloads cs

/-- The notification channels of an event's reminder overrides, in order. -/
def overrideMethods (e : CalendarEvent) : List String :=
  match e.reminders with
  | some r => r.overrides.map Override.method
  | none => []

/-- The minute offsets of an event's reminder overrides, in order. -/
def overrideMinutes (e : CalendarEvent) : List Nat :=
  match e.reminders with
  | some r => r.overrides.map Override.minutes
  | none => []

/-- A request sequence with no successful exchange: a status poll, a callback whose
profile fetch fails, a status poll, a logout, an event creation and a status poll. -/
def sampleRequests : List Request :=
  [ Request.authStatus,
    Request.oauth2callback "c0" (Except.ok { access_token := some "at", refresh_token := none })
      (Except.error { message := "profile unavailable" }),
    Request.authStatus,
    Request.logout (Except.ok ()),
    Request.addEvent (Except.ok "Asia/Kolkata") (Except.ok "evt1")
      (Except.ok (event "Asia/Kolkata")),
    Request.authStatus ]

/-- A state with a session: a stored profile and an installed token bundle. -/
def sampleSession : State :=
  { userInfo :=
      some { name := JVal.str "A", email := JVal.str "a@x.com", picture := JVal.str "p" },
    credentials := { access_token := some "old-access", refresh_token := some "old-refresh" } }

/-- A fetched event that differs from the submitted one: another time zone in
`start` and one reminder override only. -/
def sampleFetchedEvent : CalendarEvent :=
  { summary := "Exam Schedule",
    description := "Final examination for the semester",
    start := some { dateTime := "2024-08-20T03:30:00", timeZone := "UTC" },
    end_ := some { dateTime := "2024-08-20T06:30:00", timeZone := "UTC" },
    reminders := some { useDefault := false, overrides := [{ method := "popup", minutes := 10 }] } }

/-! ## Auxiliary lemmas -/

lemma handle_userInfo_none (s : State) (r : Request) (hs : s.userInfo = none)
    (hr : r.isSuccessfulExchange = false) : (handle s r).state.userInfo = none := by
  cases r with
  | auth url => simpa [handle, auth] using hs
  | oauth2callback code exchange profile =>
    cases exchange with
    | error e => simpa [handle, oauth2callback] using hs
    | ok t =>
      cases profile with
      | error e => simpa [handle, oauth2callback] using hs
      | ok p => simp [Request.isSuccessfulExchange] at hr
  | authStatus => simp [handle, authStatus, hs]
  | logout revoke =>
    cases revoke with
    | error e => simpa [handle, logout] using hs
    | ok u => simp [handle, logout]
  | addEvent settings insert confirm => simp [handle, addEvent, hs]

lemma authStatus_of_none (s : State) (hs : s.userInfo = none) :
    (authStatus s).response = Response.json 200 [("authenticated", JVal.bool false)] := by
  simp [authStatus, hs]

lemma run_authStatus_of_none (reqs : List Request) :
    ∀ s : State, s.userInfo = none →
      (∀ r ∈ reqs, r.isSuccessfulExchange = false) →
      ∀ p ∈ List.zip reqs (run s reqs), p.1.isAuthStatus = true →
        p.2 = Response.json 200 [("authenticated", JVal.bool false)] := by
  induction reqs with
  | nil => intro s _ _ p hp; simp [run] at hp
  | cons r rs ih =>
    intro s hs hall p hp hp1
    have hr : r.isSuccessfulExchange = false := hall r (List.mem_cons_self r rs)
    simp only [run, List.zip_cons_cons, List.mem_cons] at hp
    rcases hp with hp | hp
    · subst hp
      cases r with
      | authStatus => exact authStatus_of_none s hs
      | auth url => simp [Request.isAuthStatus] at hp1
      | oauth2callback code exchange profile => simp [Request.isAuthStatus] at hp1
      | logout revoke => simp [Request.isAuthStatus] at hp1
      | addEvent settings insert confirm => simp [Request.isAuthStatus] at hp1
    · exact ih (handle s r).state (handle_userInfo_none s r hs hr)
        (fun q hq => hall q (List.mem_cons_of_mem r hq)) p hp hp1

/-! ## The claims -/

/-- C1: when the session is absent (`userInfo` is `null`), `/add-event` answers
401 with the body `success: false, error: 'Not authenticated'`, issues no
outbound call at all, and leaves the state as it was, so the session stays absent. -/
theorem addEvent_not_authenticated (s : State) (h : s.userInfo = none)
    (settings insert : Except Err String) (confirm : Except Err CalendarEvent) :
    (addEvent settings insert confirm s).response =
        Response.json 401
          [("success", JVal.bool false), ("error", JVal.str "Not authenticated")] ∧
      (addEvent settings insert confirm s).calls = [] ∧
      (addEvent settings insert confirm s).state = s ∧
      (addEvent settings insert confirm s).state.userInfo = none := by
  simp [addEvent, h]

/-- Instance of C1 at the startup state. -/
theorem addEvent_not_authenticated_witness :
    State.init.userInfo = none ∧
      ((addEvent (Except.ok "Asia/Kolkata") (Except.ok "evt1") (Except.ok (event "Asia/Kolkata"))
          State.init).response =
          Response.json 401
            [("success", JVal.bool false), ("error", JVal.str "Not authenticated")] ∧
        (addEvent (Except.ok "Asia/Kolkata") (Except.ok "evt1")
          (Except.ok (event "Asia/Kolkata")) State.init).calls = [] ∧
        (addEvent (Except.ok "Asia/Kolkata") (Except.ok "evt1")
          (Except.ok (event "Asia/Kolkata")) State.init).state = State.init ∧
        (addEvent (Except.ok "Asia/Kolkata") (Except.ok "evt1")
          (Except.ok (event "Asia/Kolkata")) State.init).state.userInfo = none) :=
  ⟨rfl, addEvent_not_authenticated State.init rfl _ _ _⟩

/-- C2: from any prior state, an `/oauth2callback` request whose code exchange and
profile fetch both succeed with profile `p` redirects to `/?auth=success`, stores
`p` as the session (replacing any earlier one), and the `/auth-status` request
that follows answers exactly `authenticated: true` with the name, email and
picture of `p`. -/
theorem oauth2callback_success_authStatus (s : State) (code : String) (tokens : Tokens)
    (p : Profile) :
    run s [Request.oauth2callback code (Except.ok tokens) (Except.ok p), Request.authStatus] =
        [Response.redirect "/?auth=success",
         Response.json 200
           [("authenticated", JVal.bool true),
            ("name", p.name),
            ("email", p.email),
            ("picture", p.picture)]] ∧
      (oauth2callback code (Except.ok tokens) (Except.ok p) s).state.userInfo = some p := by
  simp [run, handle, oauth2callback, authStatus]

/-- Instance of C2: with the session of `sampleSession` stored, a successful exchange
with the profile B, b@y.org, q is followed by a status response carrying B, b@y.org
and q, not the earlier A, a@x.com and p. -/
theorem oauth2callback_success_authStatus_witness :
    run sampleSession
        [Request.oauth2callback "c1"
           (Except.ok { access_token := some "new-access", refresh_token := none })
           (Except.ok { name := JVal.str "B", email := JVal.str "b@y.org",
                        picture := JVal.str "q" }),
         Request.authStatus] =
        [Response.redirect "/?auth=success",
         Response.json 200
           [("authenticated", JVal.bool true),
            ("name", JVal.str "B"),
            ("email", JVal.str "b@y.org"),
            ("picture", JVal.str "q")]] ∧
      (oauth2callback "c1"
          (Except.ok { access_token := some "new-access", refresh_token := none })
          (Except.ok { name := JVal.str "B", email := JVal.str "b@y.org",
                       picture := JVal.str "q" })
          sampleSession).state.userInfo =
        some { name := JVal.str "B", email := JVal.str "b@y.org", picture := JVal.str "q" } :=
  oauth2callback_success_authStatus sampleSession "c1"
    { access_token := some "new-access", refresh_token := none }
    { name := JVal.str "B", email := JVal.str "b@y.org", picture := JVal.str "q" }

/-- C3: starting from the startup state, in every finite sequence of requests in
which no `/oauth2callback` request has both its code exchange and its profile
fetch succeed, every response to an `/auth-status` request is exactly
`authenticated: false`. -/
theorem authStatus_before_successful_exchange (reqs : List Request)
    (h : ∀ r ∈ reqs, r.isSuccessfulExchange = false) :
    ∀ p ∈ List.zip reqs (run State.init reqs), p.1.isAuthStatus = true →
      p.2 = Response.json 200 [("authenticated", JVal.bool false)] :=
  run_authStatus_of_none reqs State.init rfl h

/-- Instance of C3 at `sampleRequests`. -/
theorem authStatus_before_successful_exchange_witness :
    (∀ r ∈ sampleRequests, r.isSuccessfulExchange = false) ∧
      (∀ p ∈ List.zip sampleRequests (run State.init sampleRequests),
        p.1.isAuthStatus = true →
          p.2 = Response.json 200 [("authenticated", JVal.bool false)]) :=
  ⟨by simp [sampleRequests, Request.isSuccessfulExchange],
   authStatus_before_successful_exchange sampleRequests
     (by simp [sampleRequests, Request.isSuccessfulExchange])⟩

/-- C4: with a session present and any time zone returned by the settings fetch,
the one event `/add-event` submits for insertion is `event tz`; its reminders have
`useDefault` false and exactly four overrides, whose minute offsets are in order
1440, 120, 30 and 355, that is 60*24, 60*2, 30 and 60*6-5. -/
theorem addEvent_reminder_minutes (s : State) (u : Profile) (h : s.userInfo = some u)
    (tz : String) (insert : Except Err String) (confirm : Except Err CalendarEvent) :
    insertedPayloads (addEvent (Except.ok tz) insert confirm s).calls = [event tz] ∧
      (event tz).reminders.map Reminders.useDefault = some false ∧
      (event tz).reminders.map (fun r => r.overrides.length) = some 4 ∧
      overrideMinutes (event tz) = [1440, 120, 30, 355] ∧
      overrideMinutes (event tz) = [60 * 24, 60 * 2, 30, 60 * 6 - 5] := by
  refine ⟨?_, rfl, rfl, rfl, rfl⟩
  cases insert with
  | error e => simp [addEvent, h, insertedPayloads]
  | ok id =>
    cases confirm with
    | error e => simp [addEvent, h, insertedPayloads]
    | ok created =>
      cases hst : created.start <;> simp [addEvent, h, hst, insertedPayloads]

/-- Instance of C4 at `sampleSession` and the time zone America/New_York. -/
theorem addEvent_reminder_minutes_witness :
    sampleSession.userInfo =
        some { name := JVal.str "A", email := JVal.str "a@x.com", picture := JVal.str "p" } ∧
      (insertedPayloads (addEvent (Except.ok "America/New_York") (Except.ok "evt1")
          (Except.ok (event "America/New_York")) sampleSession).calls =
          [event "America/New_York"] ∧
        (event "America/New_York").reminders.map Reminders.useDefault = some false ∧
        (event "America/New_York").reminders.map (fun r => r.overrides.length) = some 4 ∧
        overrideMinutes (event "America/New_York") = [1440, 120, 30, 355] ∧
        overrideMinutes (event "America/New_York") = [60 * 24, 60 * 2, 30, 60 * 6 - 5]) :=
  ⟨rfl, addEvent_reminder_minutes sampleSession _ rfl "America/New_York" _ _⟩

/-- C5: from any prior state, when the revocation call of `POST /logout` fails the
response is 500 with `success: false` and an `error` field, the session record
`userInfo` after the request is the one from before it (a present session stays
present with the same profile, an absent one stays absent), and a following
`/auth-status` answers as it would have before the logout attempt. -/
theorem logout_failure_keeps_session (s : State) (e : Err) :
    (logout (Except.error e) s).response =
        Response.json 500
          [("success", JVal.bool false), ("error", JVal.str "Failed to logout")] ∧
      (logout (Except.error e) s).state.userInfo = s.userInfo ∧
      (∀ u : Profile, s.userInfo = some u →
        (logout (Except.error e) s).state.userInfo = some u ∧
          (authStatus (logout (Except.error e) s).state).response =
            Response.json 200
              [("authenticated", JVal.bool true),
               ("name", u.name),
               ("email", u.email),
               ("picture", u.picture)]) ∧
      (authStatus (logout (Except.error e) s).state).response = (authStatus s).response := by
  refine ⟨rfl, rfl, ?_, ?_⟩
  · intro u hu
    simp [logout, authStatus, hu]
  · cases hu : s.userInfo <;> simp [logout, authStatus, hu]

/-- Instance of C5 at `sampleSession`: after the failed logout the status response
still carries A, a@x.com and p. -/
theorem logout_failure_keeps_session_witness :
    (logout (Except.error { message := "network down" }) sampleSession).response =
        Response.json 500
          [("success", JVal.bool false), ("error", JVal.str "Failed to logout")] ∧
      (logout (Except.error { message := "network down" }) sampleSession).state.userInfo =
        some { name := JVal.str "A", email := JVal.str "a@x.com", picture := JVal.str "p" } ∧
      (authStatus
          (logout (Except.error { message := "network down" }) sampleSession).state).response =
        Response.json 200
          [("authenticated", JVal.bool true),
           ("name", JVal.str "A"),
           ("email", JVal.str "a@x.com"),
           ("picture", JVal.str "p")] :=
  ⟨(logout_failure_keeps_session sampleSession { message := "network down" }).1,
   ((logout_failure_keeps_session sampleSession { message := "network down" }).2.2.1
      { name := JVal.str "A", email := JVal.str "a@x.com", picture := JVal.str "p" } rfl).1,
   ((logout_failure_keeps_session sampleSession { message := "network down" }).2.2.1
      { name := JVal.str "A", email := JVal.str "a@x.com", picture := JVal.str "p" } rfl).2⟩

/-- C6, as stated, fails: with a session present, a callback whose code exchange
succeeds and whose profile fetch then fails redirects to `/?auth=failed` but has
already installed the new token bundle, so the record of profile and credentials
is not the one from before the request. -/
theorem callback_profile_failure_replaces_credentials :
    (oauth2callback "c0" (Except.ok { access_token := some "new-access", refresh_token := none })
        (Except.error { message := "profile unavailable" }) sampleSession).response =
        Response.redirect "/?auth=failed" ∧
      (oauth2callback "c0" (Except.ok { access_token := some "new-access", refresh_token := none })
        (Except.error { message := "profile unavailable" }) sampleSession).state ≠
        sampleSession ∧
      (oauth2callback "c0" (Except.ok { access_token := some "new-access", refresh_token := none })
        (Except.error { message := "profile unavailable" }) sampleSession).state.credentials =
        { access_token := some "new-access", refresh_token := none } := by
  refine ⟨rfl, ?_, rfl⟩
  simp [oauth2callback, sampleSession]

/-- C6, amended: a failing `/oauth2callback` request redirects to `/?auth=failed`
and leaves the stored profile as it was (absent if none existed). When the code
exchange fails the whole state is unchanged and the profile fetch is not issued;
when the exchange succeeds with bundle `t` and the profile fetch fails, the
credential bundle is replaced by `t` and nothing else changes. -/
theorem oauth2callback_failure (s : State) (code : String) :
    (∀ (e : Err) (profile : Except Err Profile),
        oauth2callback code (Except.error e) profile s =
          { response := Response.redirect "/?auth=failed", state := s,
            calls := [ExtCall.getToken code] }) ∧
      (∀ (t : Tokens) (e : Err),
        oauth2callback code (Except.ok t) (Except.error e) s =
          { response := Response.redirect "/?auth=failed",
            state := { userInfo := s.userInfo, credentials := t },
            calls := [ExtCall.getToken code, ExtCall.userinfoGet] }) :=
  ⟨fun _ _ => rfl, fun _ _ => rfl⟩

/-- C7: with a session present, a failing step of `/add-event` with message `m`
gives status 500 and the body `success: false, error: m`, and no later step is
issued: after a failed time zone fetch only that fetch was called, after a failed
insert only the fetch and the insert, and after a failed confirmation fetch the
body is still the failure body, which carries no event id. -/
theorem addEvent_first_failure_aborts (s : State) (u : Profile) (h : s.userInfo = some u)
    (e : Err) (tz id : String) (insert : Except Err String)
    (confirm : Except Err CalendarEvent) :
    (addEvent (Except.error e) insert confirm s =
        { response :=
            Response.json 500 [("success", JVal.bool false), ("error", JVal.str e.message)],
          state := s,
          calls := [ExtCall.settingsGet "timezone"] }) ∧
      (addEvent (Except.ok tz) (Except.error e) confirm s =
        { response :=
            Response.json 500 [("success", JVal.bool false), ("error", JVal.str e.message)],
          state := s,
          calls := [ExtCall.settingsGet "timezone",
                    ExtCall.eventsInsert "primary" (event tz) true "all"] }) ∧
      (addEvent (Except.ok tz) (Except.ok id) (Except.error e) s =
        { response :=
            Response.json 500 [("success", JVal.bool false), ("error", JVal.str e.message)],
          state := s,
          calls := [ExtCall.settingsGet "timezone",
                    ExtCall.eventsInsert "primary" (event tz) true "all",
                    ExtCall.eventsGet "primary" id] }) := by
  simp [addEvent, addEventFailure, h]

/-- Instance of C7 at `sampleSession` with the error message `quota exceeded`. -/
theorem addEvent_first_failure_aborts_witness :
    sampleSession.userInfo =
        some { name := JVal.str "A", email := JVal.str "a@x.com", picture := JVal.str "p" } ∧
      ((addEvent (Except.error { message := "quota exceeded" }) (Except.ok "evt1")
          (Except.ok (event "Asia/Kolkata")) sampleSession =
          { response :=
              Response.json 500
                [("success", JVal.bool false), ("error", JVal.str "quota exceeded")],
            state := sampleSession,
            calls := [ExtCall.settingsGet "timezone"] }) ∧
        (addEvent (Except.ok "Asia/Kolkata") (Except.error { message := "quota exceeded" })
          (Except.ok (event "Asia/Kolkata")) sampleSession =
          { response :=
              Response.json 500
                [("success", JVal.bool false), ("error", JVal.str "quota exceeded")],
            state := sampleSession,
            calls := [ExtCall.settingsGet "timezone",
                      ExtCall.eventsInsert "primary" (event "Asia/Kolkata") true "all"] }) ∧
        (addEvent (Except.ok "Asia/Kolkata") (Except.ok "evt7")
          (Except.error { message := "quota exceeded" }) sampleSession =
          { response :=
              Response.json 500
                [("success", JVal.bool false), ("error", JVal.str "quota exceeded")],
            state := sampleSession,
            calls := [ExtCall.settingsGet "timezone",
                      ExtCall.eventsInsert "primary" (event "Asia/Kolkata") true "all",
                      ExtCall.eventsGet "primary" "evt7"] })) :=
  ⟨rfl, addEvent_first_failure_aborts sampleSession _ rfl
    { message := "quota exceeded" } "Asia/Kolkata" "evt7" (Except.ok "evt1")
    (Except.ok (event "Asia/Kolkata"))⟩

/-- C8: with a session present, a time zone `tz` from the settings fetch and an
identifier `id` from the insert, when the confirmation fetch returns the event
exactly as it was submitted, `/add-event` answers 200 with `success: true`,
`eventId: id`, `eventTimeZone: tz` and the reminders of the constructed event
(`useDefault` false and the four overrides); the calls are the settings fetch,
the insert of `event tz` and the fetch of `id`, and both `start` and `end` of the
submitted event carry `tz`. The time zone and the reminders of the response are
read from the fetched event: for any fetched event with a `start`, the response
carries the time zone of that `start` and the fetched reminders (none if the
fetched event has none). -/
theorem addEvent_roundtrip (s : State) (u : Profile) (h : s.userInfo = some u)
    (tz id : String) :
    addEvent (Except.ok tz) (Except.ok id) (Except.ok (event tz)) s =
        { response :=
            Response.json 200
              [("success", JVal.bool true),
               ("eventId", JVal.str id),
               ("eventTimeZone", JVal.str tz),
               ("reminders", JVal.reminders
                 { useDefault := false,
                   overrides :=
                     [ { method := "email", minutes := 1440 },
                       { method := "popup", minutes := 120 },
                       { method := "popup", minutes := 30 },
                       { method := "popup", minutes := 355 } ] })],
          state := s,
          calls := [ExtCall.settingsGet "timezone",
                    ExtCall.eventsInsert "primary" (event tz) true "all",
                    ExtCall.eventsGet "primary" id] } ∧
      (event tz).start = some { dateTime := "2024-08-20T09:00:00", timeZone := tz } ∧
      (event tz).end_ = some { dateTime := "2024-08-20T12:00:00", timeZone := tz } ∧
      (∀ (created : CalendarEvent) (st : EventDateTime) (r : Reminders),
        created.start = some st → created.reminders = some r →
          (addEvent (Except.ok tz) (Except.ok id) (Except.ok created) s).response =
            Response.json 200
              [("success", JVal.bool true),
               ("eventId", JVal.str id),
               ("eventTimeZone", JVal.str st.timeZone),
               ("reminders", JVal.reminders r)]) ∧
      (∀ (created : CalendarEvent) (st : EventDateTime),
        created.start = some st → created.reminders = none →
          (addEvent (Except.ok tz) (Except.ok id) (Except.ok created) s).response =
            Response.json 200
              [("success", JVal.bool true),
               ("eventId", JVal.str id),
               ("eventTimeZone", JVal.str st.timeZone),
               ("reminders", JVal.undef)]) := by
  refine ⟨?_, rfl, rfl, ?_, ?_⟩
  · simp [addEvent, h, event, JVal.ofReminders]
  · intro created st r hst hr
    simp [addEvent, h, hst, hr, JVal.ofReminders]
  · intro created st hst hr
    simp [addEvent, h, hst, hr, JVal.ofReminders]

/-- Instance of C8 at `sampleSession`, America/New_York and the identifier `evt1`:
the faithful fetch echoes America/New_York and the four overrides, while the fetch
of `sampleFetchedEvent` makes the response carry UTC and its single override. -/
theorem addEvent_roundtrip_witness :
    sampleSession.userInfo =
        some { name := JVal.str "A", email := JVal.str "a@x.com", picture := JVal.str "p" } ∧
      addEvent (Except.ok "America/New_York") (Except.ok "evt1")
          (Except.ok (event "America/New_York")) sampleSession =
        { response :=
            Response.json 200
              [("success", JVal.bool true),
               ("eventId", JVal.str "evt1"),
               ("eventTimeZone", JVal.str "America/New_York"),
               ("reminders", JVal.reminders
                 { useDefault := false,
                   overrides :=
                     [ { method := "email", minutes := 1440 },
                       { method := "popup", minutes := 120 },
                       { method := "popup", minutes := 30 },
                       { method := "popup", minutes := 355 } ] })],
          state := sampleSession,
          calls := [ExtCall.settingsGet "timezone",
                    ExtCall.eventsInsert "primary" (event "America/New_York") true "all",
                    ExtCall.eventsGet "primary" "evt1"] } ∧
      (addEvent (Except.ok "America/New_York") (Except.ok "evt1")
          (Except.ok sampleFetchedEvent) sampleSession).response =
        Response.json 200
          [("success", JVal.bool true),
           ("eventId", JVal.str "evt1"),
           ("eventTimeZone", JVal.str "UTC"),
           ("reminders", JVal.reminders
             { useDefault := false, overrides := [{ method := "popup", minutes := 10 }] })] :=
  ⟨rfl,
   (addEvent_roundtrip sampleSession _ rfl "America/New_York" "evt1").1,
   (addEvent_roundtrip sampleSession _ rfl "America/New_York" "evt1").2.2.2.1
     sampleFetchedEvent { dateTime := "2024-08-20T03:30:00", timeZone := "UTC" }
     { useDefault := false, overrides := [{ method := "popup", minutes := 10 }] } rfl rfl⟩

/-- C9: from any prior state, with or without a session, `POST /logout` issues the
revocation call whatever its outcome; when the revocation succeeds the response is
200 with `success: true, message: 'Logged out successfully'`, the session is
absent afterwards, a following `/auth-status` answers `authenticated: false` and
a following `/add-event` answers 401. -/
theorem logout_revokes_and_clears (s : State) :
    (∀ revoke : Except Err Unit, (logout revoke s).calls = [ExtCall.revokeCredentials]) ∧
      (logout (Except.ok ()) s).response =
        Response.json 200
          [("success", JVal.bool true), ("message", JVal.str "Logged out successfully")] ∧
      (logout (Except.ok ()) s).state.userInfo = none ∧
      (authStatus (logout (Except.ok ()) s).state).response =
        Response.json 200 [("authenticated", JVal.bool false)] ∧
      (∀ (settings insert : Except Err String) (confirm : Except Err CalendarEvent),
        (addEvent settings insert confirm (logout (Except.ok ()) s).state).response =
            Response.json 401
              [("success", JVal.bool false), ("error", JVal.str "Not authenticated")] ∧
          (addEvent settings insert confirm (logout (Except.ok ()) s).state).calls = []) := by
  refine ⟨?_, rfl, rfl, rfl, fun _ _ _ => ⟨rfl, rfl⟩⟩
  intro revoke
  cases revoke <;> rfl

/-- C10, as stated, fails: for the event built for a session and the time zone
America/New_York, the channels of the four overrides are email, popup, popup and
popup, and no two distinct channels are each used by exactly two overrides. -/
theorem overrides_not_two_and_two :
    insertedPayloads (addEvent (Except.ok "America/New_York") (Except.ok "evt1")
        (Except.ok (event "America/New_York")) sampleSession).calls =
        [event "America/New_York"] ∧
      overrideMethods (event "America/New_York") = ["email", "popup", "popup", "popup"] ∧
      ¬ ∃ a b : String, a ≠ b ∧
          (overrideMethods (event "America/New_York")).count a = 2 ∧
          (overrideMethods (event "America/New_York")).count b = 2 := by
  refine ⟨rfl, rfl, ?_⟩
  rintro ⟨a, b, -, ha, -⟩
  have hm : overrideMethods (event "America/New_York") = ["email", "popup", "popup", "popup"] :=
    rfl
  rw [hm] at ha
  by_cases h1 : a = "email"
  · subst h1
    simp [List.count_cons] at ha
  · by_cases h2 : a = "popup"
    · subst h2
      simp [List.count_cons] at ha
    · have e1 : ("email" == a) = false := by
        simpa using fun h => h1 h.symm
      have e2 : ("popup" == a) = false := by
        simpa using fun h => h2 h.symm
      simp [List.count_cons, e1, e2] at ha

/-- C10, amended: for every session and every fetched time zone, the four reminder
overrides of the submitted event use exactly two distinct channels, email and
popup: the override one day before (1440 minutes) goes by email, and the overrides
2 hours (120), 30 minutes (30) and 6 hours minus 5 minutes (355) before go by
popup. -/
theorem overrides_one_email_three_popup (s : State) (u : Profile) (h : s.userInfo = some u)
    (tz : String) (insert : Except Err String) (confirm : Except Err CalendarEvent) :
    insertedPayloads (addEvent (Except.ok tz) insert confirm s).calls = [event tz] ∧
      (event tz).reminders.map Reminders.overrides =
        some [ { method := "email", minutes := 1440 },
               { method := "popup", minutes := 120 },
               { method := "popup", minutes := 30 },
               { method := "popup", minutes := 355 } ] ∧
      overrideMethods (event tz) = ["email", "popup", "popup", "popup"] ∧
      (overrideMethods (event tz)).dedup = ["email", "popup"] ∧
      (overrideMethods (event tz)).count "email" = 1 ∧
      (overrideMethods (event tz)).count "popup" = 3 := by
  have hm : overrideMethods (event tz) = ["email", "popup", "popup", "popup"] := rfl
  refine ⟨?_, rfl, hm, ?_, ?_, ?_⟩
  · cases insert with
    | error e => simp [addEvent, h, insertedPayloads]
    | ok id =>
      cases confirm with
      | error e => simp [addEvent, h, insertedPayloads]
      | ok created =>
        cases hst : created.start <;> simp [addEvent, h, hst, insertedPayloads]
  · rw [hm]; decide
  · rw [hm]; decide
  · rw [hm]; decide

/-- Instance of amended C10 at `sampleSession` and the time zone Asia/Kolkata. -/
theorem overrides_one_email_three_popup_witness :
    sampleSession.userInfo =
        some { name := JVal.str "A", email := JVal.str "a@x.com", picture := JVal.str "p" } ∧
      (insertedPayloads (addEvent (Except.ok "Asia/Kolkata") (Except.ok "evt1")
          (Except.ok (event "Asia/Kolkata")) sampleSession).calls = [event "Asia/Kolkata"] ∧
        (event "Asia/Kolkata").reminders.map Reminders.overrides =
          some [ { method := "email", minutes := 1440 },
                 { method := "popup", minutes := 120 },
                 { method := "popup", minutes := 30 },
                 { method := "popup", minutes := 355 } ] ∧
        overrideMethods (event "Asia/Kolkata") = ["email", "popup", "popup", "popup"] ∧
        (overrideMethods (event "Asia/Kolkata")).dedup = ["email", "popup"] ∧
        (overrideMethods (event "Asia/Kolkata")).count "email" = 1 ∧
        (overrideMethods (event "Asia/Kolkata")).count "popup" = 3) :=
  ⟨rfl, overrides_one_email_three_popup sampleSession _ rfl "Asia/Kolkata" _ _⟩

end NptelAutomation
